import Mathlib

/-!
Verification of the eLearning platform's chat / enrollment / notification
subsystem, shallowly embedded from the Python (Django) source:

* `chat/consumers.py` — WebSocket connection gate, message ingestion and
  broadcast (`DirectChatConsumer`, `GroupChatConsumer`);
* `chat/views.py` — HTTP room bootstrap (`DirectMessageView`,
  `CourseGroupChatView`);
* `chat/serializers.py` — API message history (`ChatRoomDetailSerializer`);
* `courses/models.py` — `Course.enrolled_count`, `Course.is_full`,
  `Enrollment.Status`;
* `courses/views.py` — `enroll`, `unenroll`;
* `courses/signals.py` and `notifications/tasks.py` — eager notification
  dispatch.

The relational store is a `DB` record of lists of rows.  Queryset default
orderings from the model `Meta` classes are reflected in how rows are kept:
chat rooms are ordered newest-first (`-created_at`), so `objects.create`
prepends; messages carry an explicit `timestamp` drawn from a monotone
`clock`, and `order_by('timestamp')` is an explicit stable sort.  Celery
tasks are modelled in eager mode only (`CELERY_TASK_ALWAYS_EAGER`): a
`.delay(...)` call runs the task body inline on the same `DB`.
Timestamps are abstract `Nat` ticks; `isoformat()` is the identity on the
tick carried into the broadcast event.
-/

namespace ELearn

/-- User roles (`accounts/models.py`, `User.Role`). -/
inductive Role
  | student
  | teacher
deriving DecidableEq, Repr

/-- A user row (`accounts/models.py`). `full_name` models `get_full_name()`. -/
structure User where
  id : Nat
  username : String
  full_name : String
  role : Role
deriving DecidableEq, Repr

/-- Source: `User.is_teacher` property. -/
def User.is_teacher (u : User) : Bool := u.role == Role.teacher

/-- Source: `User.is_student` property. -/
def User.is_student (u : User) : Bool := u.role == Role.student

/-- A course row (`courses/models.py`, `Course`). -/
structure Course where
  id : Nat
  teacher_id : Nat
  title : String
  code : String
  max_students : Nat
deriving DecidableEq, Repr

/-- Source: `Enrollment.Status` choices (`courses/models.py`). -/
inductive EnrollStatus
  | active
  | dropped
  | blocked
deriving DecidableEq, Repr

/-- An enrollment row (`courses/models.py`, `Enrollment`); one row per
(student, course) pair by `unique_together`. -/
structure Enrollment where
  student_id : Nat
  course_id : Nat
  status : EnrollStatus
  enrolled_at : Nat
  dropped_at : Option Nat
deriving DecidableEq, Repr

/-- Source: `ChatRoom.RoomType` choices (`chat/models.py`). -/
inductive RoomType
  | direct
  | course
deriving DecidableEq, Repr

/-- A chat-room row (`chat/models.py`, `ChatRoom`). -/
structure ChatRoom where
  id : Nat
  name : String
  room_type : RoomType
  course_id : Option Nat
  participants : List Nat
deriving DecidableEq, Repr

/-- A message row (`chat/models.py`, `Message`). -/
structure Message where
  id : Nat
  room_id : Nat
  sender_id : Nat
  content : String
  timestamp : Nat
deriving DecidableEq, Repr

/-- A notification row (`notifications/models.py`, `Notification`). -/
structure Notification where
  recipient_id : Nat
  notification_type : String
  title : String
  message : String
  link : String
deriving DecidableEq, Repr

/-- A course-material row (`courses/models.py`, `CourseMaterial`),
restricted to the fields the notification pipeline reads. -/
structure CourseMaterial where
  id : Nat
  course_id : Nat
  title : String
deriving DecidableEq, Repr

/-- The relational store plus the channel layer's broadcast groups.
`groups` maps a group name to the channel names currently registered in it
(`channel_layer.group_add`).  `clock` supplies fresh primary keys and
`auto_now_add` timestamps, strictly increasing across writes. -/
structure DB where
  users : List User
  courses : List Course
  enrollments : List Enrollment
  rooms : List ChatRoom
  messages : List Message
  notifications : List Notification
  materials : List CourseMaterial
  groups : List (String × List String)
  clock : Nat
deriving DecidableEq, Repr

/-- Source: `User.objects.get(pk=uid)` as an option. -/
def DB.findUser (db : DB) (uid : Nat) : Option User :=
  db.users.find? (fun u => u.id == uid)

/-- Source: `Course.objects.get(id=cid)` as an option. -/
def DB.findCourse (db : DB) (cid : Nat) : Option Course :=
  db.courses.find? (fun c => c.id == cid)

/-- The unique enrollment row of a (student, course) pair, if any. -/
def DB.findEnrollment (db : DB) (sid cid : Nat) : Option Enrollment :=
  db.enrollments.find? (fun e => e.student_id == sid && e.course_id == cid)

/-- Source: `Course.enrolled_count`: number of `active`-status enrollments
(`courses/models.py`). -/
def DB.enrolled_count (db : DB) (cid : Nat) : Nat :=
  (db.enrollments.filter
    (fun e => e.course_id == cid && e.status == EnrollStatus.active)).length

/-- Source: `Course.is_full`: `enrolled_count >= max_students` (`courses/models.py`). -/
def DB.is_full (db : DB) (c : Course) : Bool :=
  c.max_students ≤ db.enrolled_count c.id

/-- Channels registered in a broadcast group (empty when the group has no
members). -/
def DB.groupMembers (db : DB) (g : String) : List String :=
  ((db.groups.find? (fun p => p.fst == g)).map Prod.snd).getD []

/-- Source: `channel_layer.group_add(g, ch)`: register channel `ch` in group `g`. -/
def DB.group_add (db : DB) (g ch : String) : DB :=
  if db.groups.any (fun p => p.fst == g) then
    { db with groups :=
        db.groups.map (fun p => if p.fst == g then (p.fst, p.snd ++ [ch]) else p) }
  else
    { db with groups := db.groups ++ [(g, [ch])] }

/-- Outcome of a WebSocket `connect` handler: handshake accepted, or the
socket closed without acceptance. -/
inductive ConnectResult
  | accepted
  | closed
deriving DecidableEq, Repr

/-- Source: `DirectChatConsumer.is_participant` (`chat/consumers.py`):
`ChatRoom.objects.filter(id=room_id, participants=user).exists()`. -/
def is_participant (db : DB) (u : User) (room_id : Nat) : Bool :=
  db.rooms.any (fun r => r.id == room_id && r.participants.contains u.id)

/-- Source: `DirectChatConsumer.connect` (`chat/consumers.py`): close for an
anonymous user (`none`); close a non-participant; otherwise `group_add`
the channel to `dm_<room_id>` and accept. -/
def directConnect (db : DB) (user : Option User) (room_id : Nat)
    (channel : String) : ConnectResult × DB :=
  match user with
  | none => (ConnectResult.closed, db)
  | some u =>
    if is_participant db u room_id then
      (ConnectResult.accepted, db.group_add ("dm_" ++ toString room_id) channel)
    else
      (ConnectResult.closed, db)

/-- Source: `GroupChatConsumer.has_course_access` (`chat/consumers.py`): resolve
the course (fail closed when missing), then teacher-or-active-enrollee. -/
def has_course_access (db : DB) (u : User) (course_id : Nat) : Bool :=
  match db.findCourse course_id with
  | none => false
  | some course =>
    course.teacher_id == u.id ||
    db.enrollments.any (fun e =>
      e.student_id == u.id && e.course_id == course_id &&
      e.status == EnrollStatus.active)

/-- Source: `GroupChatConsumer.connect` (`chat/consumers.py`): close for an
anonymous user; close without course access; otherwise `group_add` the
channel to `course_chat_<course_id>` and accept.  Note: no room row is
touched here. -/
def groupConnect (db : DB) (user : Option User) (course_id : Nat)
    (channel : String) : ConnectResult × DB :=
  match user with
  | none => (ConnectResult.closed, db)
  | some u =>
    if has_course_access db u course_id then
      (ConnectResult.accepted,
        db.group_add ("course_chat_" ++ toString course_id) channel)
    else
      (ConnectResult.closed, db)

/-- Python whitespace characters recognised by `str.strip()`. -/
def isPySpace (c : Char) : Bool :=
  c == ' ' || c == '\t' || c == '\n' || c == '\r' || c == '\x0b' || c == '\x0c'

/-- Python's `str.strip()`: drop leading and trailing whitespace. -/
def pyStrip (s : String) : String :=
  String.mk (((s.toList.dropWhile isPySpace).reverse.dropWhile isPySpace).reverse)

/-- The broadcast event built by `receive_json` and forwarded verbatim by
`chat_message` (`chat/consumers.py`): message text, sender id, sender
username, and the persisted message's timestamp (its ISO-8601 rendering is
the identity on the abstract tick). -/
structure ChatEvent where
  message : String
  sender_id : Nat
  sender_username : String
  timestamp : Nat
deriving DecidableEq, Repr

/-- Source: `DirectChatConsumer.save_message`: `Message.objects.create(room_id=...,
sender=..., content=...)`.  Returns the created row and the updated store. -/
def direct_save_message (db : DB) (u : User) (room_id : Nat)
    (content : String) : Message × DB :=
  let m : Message :=
    { id := db.clock, room_id := room_id, sender_id := u.id
    , content := content, timestamp := db.clock }
  (m, { db with messages := db.messages ++ [m], clock := db.clock + 1 })

/-- Source: `DirectChatConsumer.receive_json` (`chat/consumers.py`): read the
`message` field (default `''`), strip it; if falsy, return without side
effects; otherwise persist the row, then `group_send` the event to
`dm_<room_id>` — delivered by `chat_message` to every channel currently
registered in that group.  The second component lists the outbound frames
as (channel, event) pairs. -/
def directReceive (db : DB) (u : User) (room_id : Nat)
    (payload : Option String) : DB × List (String × ChatEvent) :=
  let message_text := pyStrip (payload.getD "")
  if message_text == "" then (db, [])
  else
    let (m, db') := direct_save_message db u room_id message_text
    let ev : ChatEvent :=
      { message := message_text, sender_id := u.id
      , sender_username := u.username, timestamp := m.timestamp }
    (db', (db'.groupMembers ("dm_" ++ toString room_id)).map (fun ch => (ch, ev)))

/-- The `ChatRoom.objects.get_or_create(course_id=..., room_type=COURSE,
defaults={'name': f'Course {course_id} Chat'})` call in
`GroupChatConsumer.save_message`.  A fresh room is prepended, matching the
`-created_at` default ordering. -/
def getOrCreateCourseRoom (db : DB) (course_id : Nat) : ChatRoom × DB :=
  match db.rooms.find? (fun r =>
      r.course_id == some course_id && r.room_type == RoomType.course) with
  | some r => (r, db)
  | none =>
    let r : ChatRoom :=
      { id := db.clock, name := "Course " ++ toString course_id ++ " Chat"
      , room_type := RoomType.course, course_id := some course_id
      , participants := [] }
    (r, { db with rooms := r :: db.rooms, clock := db.clock + 1 })

/-- Source: `GroupChatConsumer.save_message` (`chat/consumers.py`): get-or-create
the course room, then create the message row in it. -/
def group_save_message (db : DB) (u : User) (course_id : Nat)
    (content : String) : Message × DB :=
  let (room, db1) := getOrCreateCourseRoom db course_id
  let m : Message :=
    { id := db1.clock, room_id := room.id, sender_id := u.id
    , content := content, timestamp := db1.clock }
  (m, { db1 with messages := db1.messages ++ [m], clock := db1.clock + 1 })

/-- Source: `GroupChatConsumer.receive_json` (`chat/consumers.py`): strip, discard
when falsy, otherwise persist (get-or-creating the course room) and then
broadcast to `course_chat_<course_id>`. -/
def groupReceive (db : DB) (u : User) (course_id : Nat)
    (payload : Option String) : DB × List (String × ChatEvent) :=
  let message_text := pyStrip (payload.getD "")
  if message_text == "" then (db, [])
  else
    let (m, db') := group_save_message db u course_id message_text
    let ev : ChatEvent :=
      { message := message_text, sender_id := u.id
      , sender_username := u.username, timestamp := m.timestamp }
    (db',
      (db'.groupMembers ("course_chat_" ++ toString course_id)).map
        (fun ch => (ch, ev)))

/-- Timestamp-ascending comparison on message rows. -/
def tsLe (a b : Message) : Prop := a.timestamp ≤ b.timestamp

/-- Insert a message row into a timestamp-sorted list (stable: equal
timestamps keep the incoming row later). -/
def insertTs (m : Message) : List Message → List Message
  | [] => [m]
  | x :: xs =>
    if m.timestamp < x.timestamp then m :: x :: xs else x :: insertTs m xs

/-- Source: `order_by('timestamp')`: stable ascending sort by timestamp (the
model's message lists are in fact already ascending, but the queryset
sorts unconditionally). -/
def sortByTs : List Message → List Message
  | [] => []
  | x :: xs => insertTs x (sortByTs xs)

/-- Source: `room.messages` queryset: rows of one room, in the model's row order. -/
def roomMessages (db : DB) (room_id : Nat) : List Message :=
  db.messages.filter (fun m => m.room_id == room_id)

/-- Source: `room.messages.order_by('timestamp')`: ascending history of a room. -/
def roomMessagesAsc (db : DB) (room_id : Nat) : List Message :=
  sortByTs (roomMessages db room_id)

/-- The on-page history `room.messages.order_by('timestamp')[:100]` used by
`DirectMessageView.get` and `CourseGroupChatView.get` (`chat/views.py`). -/
def pageHistory (db : DB) (room_id : Nat) : List Message :=
  (roomMessagesAsc db room_id).take 100

/-- Source: `order_by('-timestamp')`: descending sort, modelled as the reverse of
the ascending one (tie order is unspecified in the source as well). -/
def sortByTsDesc (l : List Message) : List Message :=
  (sortByTs l).reverse

/-- Source: `ChatRoomDetailSerializer.get_messages` (`chat/serializers.py`):
`obj.messages.order_by('-timestamp')[:50]`, then reversed so oldest first. -/
def get_messages (db : DB) (room_id : Nat) : List Message :=
  ((sortByTsDesc (roomMessages db room_id)).take 50).reverse

/-- Outcome of `DirectMessageView.get` (`chat/views.py`). -/
inductive DMResult
  | notFound404
  | redirectSelf
  | page (room_id : Nat) (history : List Message)
deriving DecidableEq, Repr

/-- The queryset predicate of `DirectMessageView.get`: a direct-type room
whose participants include both users. -/
def dmRoomPred (a b : Nat) (r : ChatRoom) : Bool :=
  r.room_type == RoomType.direct &&
  r.participants.contains a && r.participants.contains b

/-- The fresh direct room `ChatRoom.objects.create(...)` builds in
`DirectMessageView.get`, with both users then added as participants. -/
def dmNewRoom (db : DB) (user other : User) : ChatRoom :=
  { id := db.clock
  , name := user.username ++ " & " ++ other.username
  , room_type := RoomType.direct, course_id := none
  , participants := [user.id, other.id] }

/-- Source: `DirectMessageView.get` (`chat/views.py`): 404 on an unknown peer,
redirect away on a self-target, otherwise reuse the first existing direct
room containing both users or create one (adding both participants), then
render with the first 100 messages of `order_by('timestamp')`. -/
def directMessageView (db : DB) (user : User) (target_id : Nat) :
    DMResult × DB :=
  match db.findUser target_id with
  | none => (DMResult.notFound404, db)
  | some other =>
    if other.id == user.id then (DMResult.redirectSelf, db)
    else
      match db.rooms.find? (dmRoomPred user.id other.id) with
      | some room => (DMResult.page room.id (pageHistory db room.id), db)
      | none =>
        let room := dmNewRoom db user other
        let db' := { db with rooms := room :: db.rooms, clock := db.clock + 1 }
        (DMResult.page room.id (pageHistory db' room.id), db')

/-- Source: `notifications/tasks.py`, `create_notification` task body (eager):
create one notification row. -/
def create_notification (db : DB) (recipient_id : Nat)
    (notification_type title message link : String) : DB :=
  { db with notifications := db.notifications ++
      [{ recipient_id := recipient_id, notification_type := notification_type
       , title := title, message := message, link := link }] }

/-- Source: `notifications/tasks.py`, `notify_course_students` task body (eager):
query the currently-active enrollments of the course and `bulk_create` one
notification per enrolled student. -/
def notify_course_students (db : DB) (course_id : Nat)
    (notification_type title message link : String) : DB :=
  let student_ids :=
    (db.enrollments.filter (fun e =>
      e.course_id == course_id && e.status == EnrollStatus.active)).map
      (fun e => e.student_id)
  { db with notifications := db.notifications ++
      student_ids.map (fun sid =>
        { recipient_id := sid, notification_type := notification_type
        , title := title, message := message, link := link }) }

/-- Source: `instance.student.get_full_name() or instance.student.username`
(`courses/signals.py`): the username when the full name is empty/falsy. -/
def displayName (u : User) : String :=
  if u.full_name == "" then u.username else u.full_name

/-- Source: `courses/signals.py`, `notify_teacher_on_enrollment`, specialised to a
row that was just created with active status (the only case in which the
signal enqueues work): the eager `create_notification.delay(...)` call. -/
def teacherEnrollmentNotify (db : DB) (course : Course) (stu : User) : DB :=
  create_notification db course.teacher_id "enrollment"
    ("New enrollment in " ++ course.code)
    (displayName stu ++ " has enrolled in " ++ course.title ++ ".")
    ("/courses/" ++ toString course.id ++ "/students/")

/-- Outcome of the `enroll` view (`courses/views.py`), one constructor per
exit path. -/
inductive EnrollOutcome
  | notFound404
  | notStudent
  | full
  | blockedError
  | alreadyEnrolled
  | reenrolled
  | enrolled
deriving DecidableEq, Repr

/-- Whether an `enroll` outcome surfaced as an error to the user (HTTP 404
or a `messages.error(...)` path, as opposed to info/success). -/
def EnrollOutcome.isError : EnrollOutcome → Bool
  | EnrollOutcome.notFound404 => true
  | EnrollOutcome.notStudent => true
  | EnrollOutcome.full => true
  | EnrollOutcome.blockedError => true
  | _ => false

/-- Replace the (unique) enrollment row of a (student, course) pair. -/
def updateEnrollment (l : List Enrollment) (sid cid : Nat)
    (e' : Enrollment) : List Enrollment :=
  l.map (fun e =>
    if e.student_id == sid && e.course_id == cid then e' else e)

/-- The `enroll` view (`courses/views.py`), POST path, with eager signal
dispatch: 404 on a missing course; error for a non-student; error when
`course.is_full`; otherwise `get_or_create` the enrollment row
(defaults `status=ACTIVE`).  On an existing row: blocked → error, active
→ info, dropped → flip to active and clear `dropped_at` (a plain update,
so `post_save` fires with `created=False` and no notification task runs).
On creation the `post_save` signal sees `created=True` with active status
and eagerly runs `create_notification` for the teacher. -/
def enroll (db : DB) (user : User) (course_id : Nat) : EnrollOutcome × DB :=
  match db.findCourse course_id with
  | none => (EnrollOutcome.notFound404, db)
  | some course =>
    if !user.is_student then (EnrollOutcome.notStudent, db)
    else if db.is_full course then (EnrollOutcome.full, db)
    else
      match db.findEnrollment user.id course_id with
      | some e =>
        if e.status == EnrollStatus.blocked then (EnrollOutcome.blockedError, db)
        else if e.status == EnrollStatus.active then
          (EnrollOutcome.alreadyEnrolled, db)
        else
          let e' := { e with status := EnrollStatus.active, dropped_at := none }
          (EnrollOutcome.reenrolled,
            { db with enrollments :=
                updateEnrollment db.enrollments user.id course_id e' })
      | none =>
        let e : Enrollment :=
          { student_id := user.id, course_id := course_id
          , status := EnrollStatus.active, enrolled_at := db.clock
          , dropped_at := none }
        let db1 := { db with
          enrollments := db.enrollments ++ [e], clock := db.clock + 1 }
        (EnrollOutcome.enrolled, teacherEnrollmentNotify db1 course user)

/-- Outcome of the `unenroll` view (`courses/views.py`). -/
inductive UnenrollOutcome
  | notFound404
  | droppedOk
deriving DecidableEq, Repr

/-- The `unenroll` view (`courses/views.py`), POST path:
`get_object_or_404` on the active enrollment of (user, course); set status
to dropped and stamp `dropped_at = timezone.now()` (an update, so no
notification signal work). -/
def unenroll (db : DB) (user : User) (course_id : Nat) :
    UnenrollOutcome × DB :=
  match db.enrollments.find? (fun e =>
      e.student_id == user.id && e.course_id == course_id &&
      e.status == EnrollStatus.active) with
  | none => (UnenrollOutcome.notFound404, db)
  | some e =>
    let e' := { e with
      status := EnrollStatus.dropped, dropped_at := some db.clock }
    (UnenrollOutcome.droppedOk,
      { db with
        enrollments := updateEnrollment db.enrollments user.id course_id e',
        clock := db.clock + 1 })

/-- Creating a `CourseMaterial` row with eager signal dispatch
(`courses/signals.py`, `notify_students_on_new_material`, `created=True`):
the row is saved and `notify_course_students.delay(...)` runs inline with
the fixed template from the signal. -/
def createMaterial (db : DB) (course : Course) (title : String) : DB :=
  let mat : CourseMaterial :=
    { id := db.clock, course_id := course.id, title := title }
  let db1 := { db with
    materials := db.materials ++ [mat], clock := db.clock + 1 }
  notify_course_students db1 course.id "new_material"
    ("New material in " ++ course.code)
    ("\"" ++ title ++ "\" has been uploaded to " ++ course.title ++ ".")
    ("/courses/" ++ toString course.id ++ "/")

/-- Saving an existing `CourseMaterial` row again (`created=False` in
`post_save`): the signal enqueues nothing. -/
def editMaterial (db : DB) (mat_id : Nat) (title : String) : DB :=
  { db with materials := db.materials.map (fun m =>
      if m.id == mat_id then { m with title := title } else m) }

/-- Modelled from the spec: the window of the `n` most recent messages of a
room, presented in ascending timestamp order.  This is the spec's wording
for the room-history responses, kept separate from the source-side
`pageHistory` and `get_messages` so the two can be compared. -/
def specRecentWindow (n : Nat) (db : DB) (room_id : Nat) : List Message :=
  ((sortByTsDesc (roomMessages db room_id)).take n).reverse

/-- Direct rooms of an unordered user pair: the rows the bootstrap's reuse
queryset matches. -/
def dmRoomsFor (db : DB) (a b : Nat) : List ChatRoom :=
  db.rooms.filter (dmRoomPred a b)

/-- Iterate the direct-message bootstrap `n` times as `u` targeting
`target_id`, keeping only the store. -/
def dmBootstrapIter (u : User) (target_id : Nat) : Nat → DB → DB
  | 0, db => db
  | n + 1, db => dmBootstrapIter u target_id n (directMessageView db u target_id).2

/-- Fixture: a teacher row. -/
def tUser : User :=
  { id := 1, username := "tea", full_name := "Tea Cher", role := Role.teacher }

/-- Fixture: student X. -/
def xUser : User :=
  { id := 2, username := "xstu", full_name := "", role := Role.student }

/-- Fixture: student Y. -/
def yUser : User :=
  { id := 3, username := "ystu", full_name := "", role := Role.student }

/-- Fixture: student Z. -/
def zUser : User :=
  { id := 4, username := "zstu", full_name := "", role := Role.student }

/-- Fixture: a course taught by `tUser` with capacity 2. -/
def crs : Course :=
  { id := 10, teacher_id := 1, title := "Algebra", code := "CS101"
  , max_students := 2 }

/-- Fixture: the base store with four users, one course, and nothing else. -/
def baseDB : DB :=
  { users := [tUser, xUser, yUser, zUser], courses := [crs]
  , enrollments := [], rooms := [], messages := [], notifications := []
  , materials := [], groups := [], clock := 100 }

/-- Fixture: a course with capacity 1, for the capacity-blocks-reenroll
counterexample. -/
def tinyCrs : Course :=
  { id := 11, teacher_id := 1, title := "Seminar", code := "CS900"
  , max_students := 1 }

/-- Fixture: `tinyCrs` at capacity (Y active) with X holding a dropped row. -/
def tinyFullDB : DB :=
  { users := [tUser, xUser, yUser], courses := [tinyCrs]
  , enrollments :=
      [ { student_id := 2, course_id := 11, status := EnrollStatus.dropped
        , enrolled_at := 50, dropped_at := some 60 }
      , { student_id := 3, course_id := 11, status := EnrollStatus.active
        , enrolled_at := 55, dropped_at := none } ]
  , rooms := [], messages := [], notifications := [], materials := []
  , groups := [], clock := 100 }

/-- Fixture: a store whose only room holds 101 messages with timestamps
0..100, to separate an oldest-100 window from a most-recent-100 window. -/
def manyMsgDB : DB :=
  { users := [tUser, xUser], courses := []
  , enrollments := [], rooms :=
      [ { id := 1, name := "w", room_type := RoomType.direct
        , course_id := none, participants := [1, 2] } ]
  , messages := (List.range 101).map (fun i =>
      { id := i, room_id := 1, sender_id := 1, content := "m", timestamp := i })
  , notifications := [], materials := [], groups := [], clock := 200 }

/-- Fixture: `baseDB` with student X holding a dropped enrollment in `crs`. -/
def droppedDB : DB :=
  { baseDB with enrollments :=
      [ { student_id := 2, course_id := 10, status := EnrollStatus.dropped
        , enrolled_at := 50, dropped_at := some 60 } ] }

/-- Fixture: `crs` with one active, one dropped and one blocked enrollment. -/
def mixedDB : DB :=
  { baseDB with enrollments :=
      [ { student_id := 2, course_id := 10, status := EnrollStatus.active
        , enrolled_at := 50, dropped_at := none }
      , { student_id := 3, course_id := 10, status := EnrollStatus.dropped
        , enrolled_at := 51, dropped_at := some 70 }
      , { student_id := 4, course_id := 10, status := EnrollStatus.blocked
        , enrolled_at := 52, dropped_at := none } ] }

theorem mem_insertTs {a m : Message} {l : List Message} :
    a ∈ insertTs m l ↔ a = m ∨ a ∈ l := by
  induction l with
  | nil => simp [insertTs]
  | cons x xs ih =>
    simp only [insertTs]
    split
    · simp [List.mem_cons]
    · simp only [List.mem_cons, ih]
      tauto

theorem length_insertTs (m : Message) (l : List Message) :
    (insertTs m l).length = l.length + 1 := by
  induction l with
  | nil => rfl
  | cons x xs ih =>
    simp only [insertTs]
    split
    · simp
    · simp [ih]

theorem pairwise_insertTs {m : Message} {l : List Message}
    (h : List.Pairwise tsLe l) : List.Pairwise tsLe (insertTs m l) := by
  induction l with
  | nil => simp [insertTs, tsLe]
  | cons x xs ih =>
    simp only [insertTs]
    split
    · rename_i hlt
      refine List.Pairwise.cons ?_ h
      intro b hb
      rcases List.mem_cons.mp hb with rfl | hb
      · exact Nat.le_of_lt hlt
      · exact Nat.le_trans (Nat.le_of_lt hlt) (List.rel_of_pairwise_cons h hb)
    · rename_i hge
      refine List.Pairwise.cons ?_ (ih h.of_cons)
      intro b hb
      rcases mem_insertTs.mp hb with rfl | hb
      · exact Nat.le_of_not_lt hge
      · exact List.rel_of_pairwise_cons h hb

theorem mem_sortByTs {a : Message} {l : List Message} :
    a ∈ sortByTs l ↔ a ∈ l := by
  induction l with
  | nil => simp [sortByTs]
  | cons x xs ih => simp [sortByTs, mem_insertTs, ih]

theorem length_sortByTs (l : List Message) :
    (sortByTs l).length = l.length := by
  induction l with
  | nil => rfl
  | cons x xs ih => simp [sortByTs, length_insertTs, ih]

theorem pairwise_sortByTs (l : List Message) :
    List.Pairwise tsLe (sortByTs l) := by
  induction l with
  | nil => exact List.Pairwise.nil
  | cons x xs ih => exact pairwise_insertTs ih

theorem pairwise_take_drop {R : Message → Message → Prop} {l : List Message}
    (h : List.Pairwise R l) (n : Nat) :
    ∀ x ∈ l.take n, ∀ y ∈ l.drop n, R x y := by
  have hsplit : List.Pairwise R (l.take n ++ l.drop n) := by
    rw [List.take_append_drop]
    exact h
  exact (List.pairwise_append.mp hsplit).2.2

theorem find?_strengthen {α} {p q : α → Bool} {l : List α} {a : α}
    (h : l.find? p = some a) (hq : q a = true)
    (himp : ∀ x, q x = true → p x = true) : l.find? q = some a := by
  induction l with
  | nil => simp at h
  | cons x xs ih =>
    by_cases hp : p x = true
    · rw [List.find?_cons_of_pos _ hp] at h
      cases h
      rw [List.find?_cons_of_pos _ hq]
    · rw [List.find?_cons_of_neg _ hp] at h
      have hqx : ¬ q x = true := fun hqx => hp (himp x hqx)
      rw [List.find?_cons_of_neg _ (by simpa using hqx)]
      exact ih h

theorem find?_updateEnrollment {l : List Enrollment} {sid cid : Nat}
    (e' : Enrollment) (hs : e'.student_id = sid) (hc : e'.course_id = cid)
    (h : (l.find? (fun e => e.student_id == sid && e.course_id == cid)).isSome) :
    (updateEnrollment l sid cid e').find?
      (fun e => e.student_id == sid && e.course_id == cid) = some e' := by
  induction l with
  | nil => simp [List.find?] at h
  | cons x xs ih =>
    cases hp : (x.student_id == sid && x.course_id == cid) with
    | true =>
      simp only [updateEnrollment, List.map_cons, hp, if_true]
      simp [List.find?, hs, hc]
    | false =>
      simp only [List.find?, hp, Bool.false_eq_true, if_false] at h
      simp only [updateEnrollment, List.map_cons, hp, if_false]
      have := ih (by simpa [List.find?] using h)
      simpa [List.find?, hp, updateEnrollment] using this

theorem length_updateEnrollment (l : List Enrollment) (sid cid : Nat)
    (e' : Enrollment) :
    (updateEnrollment l sid cid e').length = l.length := by
  simp [updateEnrollment]

theorem course_id_unique {db : DB}
    (h : db.courses.Pairwise (fun a b => a.id ≠ b.id))
    {c c' : Course} (hc : c ∈ db.courses) (hc' : c' ∈ db.courses)
    (hid : c.id = c'.id) : c = c' := by
  by_contra hne
  exact List.Pairwise.forall (by intro a b hab hidq; exact hab hidq.symm) h hc hc' hne hid

/-- C1: the connect gate accepts exactly the authorized callers. -/
theorem C1_connection_gate (db : DB) (u : User) (room_id course_id : Nat)
    (ch : String)
    (hcu : db.courses.Pairwise (fun a b => a.id ≠ b.id)) :
    directConnect db none room_id ch = (ConnectResult.closed, db) ∧
    groupConnect db none course_id ch = (ConnectResult.closed, db) ∧
    ((directConnect db (some u) room_id ch).1 = ConnectResult.accepted ↔
      ∃ r ∈ db.rooms, r.id = room_id ∧ u.id ∈ r.participants) ∧
    ((groupConnect db (some u) course_id ch).1 = ConnectResult.accepted ↔
      ∃ c ∈ db.courses, c.id = course_id ∧
        (c.teacher_id = u.id ∨ ∃ e ∈ db.enrollments,
          e.student_id = u.id ∧ e.course_id = course_id ∧
          e.status = EnrollStatus.active)) ∧
    ((directConnect db (some u) room_id ch).1 = ConnectResult.closed →
      (directConnect db (some u) room_id ch).2 = db) ∧
    ((groupConnect db (some u) course_id ch).1 = ConnectResult.closed →
      (groupConnect db (some u) course_id ch).2 = db) := by
  have hdir : (directConnect db (some u) room_id ch).1 = ConnectResult.accepted ↔
      is_participant db u room_id = true := by
    unfold directConnect
    by_cases h : is_participant db u room_id = true
    · simp [h]
    · simp [h]
  have hgrp : (groupConnect db (some u) course_id ch).1 = ConnectResult.accepted ↔
      has_course_access db u course_id = true := by
    unfold groupConnect
    by_cases h : has_course_access db u course_id = true
    · simp [h]
    · simp [h]
  refine ⟨rfl, rfl, ?_, ?_, ?_, ?_⟩
  · rw [hdir]
    simp [is_participant, List.any_eq_true]
  · rw [hgrp]
    unfold has_course_access
    cases hfc : db.findCourse course_id with
    | none =>
      have hnone := List.find?_eq_none.mp hfc
      simp only [Bool.false_eq_true, false_iff]
      rintro ⟨c, hcmem, hcid, -⟩
      exact hnone c hcmem (by simpa using hcid)
    | some c0 =>
      have hc0mem : c0 ∈ db.courses := List.mem_of_find?_eq_some hfc
      have hc0id : c0.id = course_id := by simpa using List.find?_some hfc
      constructor
      · intro hacc
        refine ⟨c0, hc0mem, hc0id, ?_⟩
        simp only [Bool.or_eq_true] at hacc
        rcases hacc with ht | he
        · exact Or.inl (by simpa using ht)
        · right
          obtain ⟨e, hemem, hpred⟩ := List.any_eq_true.mp he
          refine ⟨e, hemem, ?_, ?_, ?_⟩ <;> simp_all
      · rintro ⟨c, hcmem, hcid, hacc⟩
        have hcc0 : c = c0 := course_id_unique hcu hcmem hc0mem (hcid.trans hc0id.symm)
        subst hcc0
        simp only [Bool.or_eq_true]
        rcases hacc with ht | ⟨e, hemem, he1, he2, he3⟩
        · exact Or.inl (by simpa using ht)
        · exact Or.inr (List.any_eq_true.mpr ⟨e, hemem, by simp [he1, he2, he3]⟩)
  · intro hcl
    unfold directConnect at hcl ⊢
    by_cases h : is_participant db u room_id = true
    · simp [h] at hcl
    · simp [h]
  · intro hcl
    unfold groupConnect at hcl ⊢
    by_cases h : has_course_access db u course_id = true
    · simp [h] at hcl
    · simp [h]

/-- C1 witness. -/
theorem C1_connection_gate_witness :
    ((groupConnect tinyFullDB (some yUser) 11 "chY").1 = ConnectResult.accepted ↔
      ∃ c ∈ tinyFullDB.courses, c.id = 11 ∧
        (c.teacher_id = yUser.id ∨ ∃ e ∈ tinyFullDB.enrollments,
          e.student_id = yUser.id ∧ e.course_id = 11 ∧
          e.status = EnrollStatus.active)) := by
  exact (C1_connection_gate tinyFullDB yUser 5 11 "chY" (by decide)).2.2.2.1

theorem getOrCreateCourseRoom_messages (db : DB) (cid : Nat) :
    (getOrCreateCourseRoom db cid).2.messages = db.messages := by
  unfold getOrCreateCourseRoom
  cases h : db.rooms.find? (fun r =>
      r.course_id == some cid && r.room_type == RoomType.course) <;> simp

theorem getOrCreateCourseRoom_groups (db : DB) (cid : Nat) :
    (getOrCreateCourseRoom db cid).2.groups = db.groups := by
  unfold getOrCreateCourseRoom
  cases h : db.rooms.find? (fun r =>
      r.course_id == some cid && r.room_type == RoomType.course) <;> simp

theorem getOrCreateCourseRoom_room (db : DB) (cid : Nat) :
    (getOrCreateCourseRoom db cid).1.course_id = some cid ∧
    (getOrCreateCourseRoom db cid).1.room_type = RoomType.course ∧
    (getOrCreateCourseRoom db cid).1 ∈ (getOrCreateCourseRoom db cid).2.rooms := by
  unfold getOrCreateCourseRoom
  cases h : db.rooms.find? (fun r =>
      r.course_id == some cid && r.room_type == RoomType.course) with
  | none => simp
  | some r =>
    have hp := List.find?_some h
    have hm := List.mem_of_find?_eq_some h
    simp only [Bool.and_eq_true, beq_iff_eq] at hp
    simp [hp.1, hp.2, hm]

/-- C2: an inbound frame whose `message` strips to empty is silently
discarded (no persistence, no broadcast); a non-empty one persists exactly
one message row and only then publishes a single event — carrying the text,
sender id, sender username and the persisted row's timestamp — to every
channel registered in the room's group, the sender's own included. -/
theorem C2_receive_persist_broadcast (db : DB) (u : User)
    (room_id course_id : Nat) (payload : Option String) (ch : String) :
    (pyStrip (payload.getD "") = "" →
      directReceive db u room_id payload = (db, []) ∧
      groupReceive db u course_id payload = (db, [])) ∧
    (pyStrip (payload.getD "") ≠ "" →
      (∃ m ev,
        (directReceive db u room_id payload).1.messages = db.messages ++ [m] ∧
        m.room_id = room_id ∧ m.sender_id = u.id ∧
        m.content = pyStrip (payload.getD "") ∧
        ev = { message := m.content, sender_id := u.id
             , sender_username := u.username, timestamp := m.timestamp } ∧
        (directReceive db u room_id payload).2 =
          (db.groupMembers ("dm_" ++ toString room_id)).map (fun c => (c, ev)) ∧
        (ch ∈ db.groupMembers ("dm_" ++ toString room_id) →
          (ch, ev) ∈ (directReceive db u room_id payload).2)) ∧
      (∃ m ev room,
        (groupReceive db u course_id payload).1.messages = db.messages ++ [m] ∧
        room ∈ (groupReceive db u course_id payload).1.rooms ∧
        room.course_id = some course_id ∧ room.room_type = RoomType.course ∧
        m.room_id = room.id ∧ m.sender_id = u.id ∧
        m.content = pyStrip (payload.getD "") ∧
        ev = { message := m.content, sender_id := u.id
             , sender_username := u.username, timestamp := m.timestamp } ∧
        (groupReceive db u course_id payload).2 =
          (db.groupMembers ("course_chat_" ++ toString course_id)).map
            (fun c => (c, ev)) ∧
        (ch ∈ db.groupMembers ("course_chat_" ++ toString course_id) →
          (ch, ev) ∈ (groupReceive db u course_id payload).2))) := by
  constructor
  · intro hemp
    have hbeq : (pyStrip (payload.getD "") == "") = true := by simpa using hemp
    constructor
    · simp [directReceive, hbeq]
    · simp [groupReceive, hbeq]
  · intro hne
    have hbeq : (pyStrip (payload.getD "") == "") = false := by simpa using hne
    constructor
    · refine ⟨{ id := db.clock, room_id := room_id, sender_id := u.id
              , content := pyStrip (payload.getD ""), timestamp := db.clock },
             { message := pyStrip (payload.getD ""), sender_id := u.id
             , sender_username := u.username, timestamp := db.clock },
             ?_, rfl, rfl, rfl, rfl, ?_, ?_⟩
      · simp [directReceive, hbeq, direct_save_message]
      · simp [directReceive, hbeq, direct_save_message, DB.groupMembers]
      · intro hch
        have hdel : (directReceive db u room_id payload).2 =
            (db.groupMembers ("dm_" ++ toString room_id)).map
              (fun c => (c, ({ message := pyStrip (payload.getD "")
                             , sender_id := u.id, sender_username := u.username
                             , timestamp := db.clock } : ChatEvent))) := by
          simp [directReceive, hbeq, direct_save_message, DB.groupMembers]
        rw [hdel]
        exact List.mem_map_of_mem _ hch
    · rcases hroom : getOrCreateCourseRoom db course_id with ⟨room, db1⟩
      have hmsg : db1.messages = db.messages := by
        have := getOrCreateCourseRoom_messages db course_id
        rw [hroom] at this
        exact this
      have hgrps : db1.groups = db.groups := by
        have := getOrCreateCourseRoom_groups db course_id
        rw [hroom] at this
        exact this
      have hrm := getOrCreateCourseRoom_room db course_id
      rw [hroom] at hrm
      refine ⟨{ id := db1.clock, room_id := room.id, sender_id := u.id
              , content := pyStrip (payload.getD ""), timestamp := db1.clock },
             { message := pyStrip (payload.getD ""), sender_id := u.id
             , sender_username := u.username, timestamp := db1.clock },
             room, ?_, ?_, hrm.1, hrm.2.1, rfl, rfl, rfl, rfl, ?_, ?_⟩
      · simp [groupReceive, hbeq, group_save_message, hroom, hmsg]
      · simp only [groupReceive, hbeq]
        simp [group_save_message, hroom, hrm.2.2]
      · simp [groupReceive, hbeq, group_save_message, hroom, DB.groupMembers, hgrps]
      · intro hch
        have hdel : (groupReceive db u course_id payload).2 =
            (db.groupMembers ("course_chat_" ++ toString course_id)).map
              (fun c => (c, ({ message := pyStrip (payload.getD "")
                             , sender_id := u.id, sender_username := u.username
                             , timestamp := db1.clock } : ChatEvent))) := by
          simp [groupReceive, hbeq, group_save_message, hroom, DB.groupMembers, hgrps]
        rw [hdel]
        exact List.mem_map_of_mem _ hch

/-- C2 witness. -/
theorem C2_receive_persist_broadcast_witness :
    ∃ m ev,
      (directReceive baseDB xUser 7 (some " hi ")).1.messages =
        baseDB.messages ++ [m] ∧
      m.room_id = 7 ∧ m.sender_id = xUser.id ∧
      m.content = pyStrip ((some " hi ").getD "") ∧
      ev = { message := m.content, sender_id := xUser.id
           , sender_username := xUser.username, timestamp := m.timestamp } ∧
      (directReceive baseDB xUser 7 (some " hi ")).2 =
        (baseDB.groupMembers ("dm_" ++ toString 7)).map (fun c => (c, ev)) ∧
      ("chX" ∈ baseDB.groupMembers ("dm_" ++ toString 7) →
        ("chX", ev) ∈ (directReceive baseDB xUser 7 (some " hi ")).2) :=
  ((C2_receive_persist_broadcast baseDB xUser 7 10 (some " hi ") "chX").2
    (by decide)).1

/-- C3 counterexample: the claim's unconditional dropped-to-active
transition fails on a course at capacity — the `is_full` guard runs before
`get_or_create`, so the dropped student's enroll attempt is rejected with
the capacity error and the row stays dropped. -/
theorem C3_counterexample_capacity_blocks_reenroll :
    (tinyFullDB.findEnrollment 2 11).map Enrollment.status
      = some EnrollStatus.dropped ∧
    xUser.is_student = true ∧
    (enroll tinyFullDB xUser 11).1 = EnrollOutcome.full ∧
    ¬ ((((enroll tinyFullDB xUser 11).2.findEnrollment 2 11).map
        Enrollment.status) = some EnrollStatus.active) := by decide

/-- C3 (amended): the enrollment state machine as implemented.  The two
transitions the enroll view can only reach past its guards (course
resolved, caller a student, course not at capacity) are stated under them:
a fresh pair gets a new row with status active, and a dropped row flips
back to active on the same row, clearing `dropped_at`, without a second
row — the capacity guard on the latter is what the counterexample forces.
The remaining transitions hold unconditionally: a blocked row's enroll
attempt is rejected with an error and nothing changes (and specifically
with the blocked error once the guards pass), and unenroll flips an
active row to dropped, stamping `dropped_at`, with no capacity check. -/
theorem C3_amended_state_machine (db : DB) (u : User) (c : Course)
    (cid : Nat) :
    (db.findCourse cid = some c → u.is_student = true →
      db.is_full c = false → db.findEnrollment u.id cid = none →
      (enroll db u cid).1 = EnrollOutcome.enrolled ∧
      (enroll db u cid).2.findEnrollment u.id cid =
        some { student_id := u.id, course_id := cid
             , status := EnrollStatus.active, enrolled_at := db.clock
             , dropped_at := none }) ∧
    (db.findCourse cid = some c → u.is_student = true →
      db.is_full c = false →
      ∀ e, db.findEnrollment u.id cid = some e →
      e.status = EnrollStatus.dropped →
      (enroll db u cid).1 = EnrollOutcome.reenrolled ∧
      (enroll db u cid).2.findEnrollment u.id cid =
        some { e with status := EnrollStatus.active, dropped_at := none } ∧
      (enroll db u cid).2.enrollments.length = db.enrollments.length) ∧
    (∀ e, db.findEnrollment u.id cid = some e →
      e.status = EnrollStatus.blocked →
      (enroll db u cid).1.isError = true ∧
      (enroll db u cid).2 = db) ∧
    (db.findCourse cid = some c → u.is_student = true →
      db.is_full c = false →
      ∀ e, db.findEnrollment u.id cid = some e →
      e.status = EnrollStatus.blocked →
      (enroll db u cid).1 = EnrollOutcome.blockedError) ∧
    (∀ e, db.findEnrollment u.id cid = some e →
      e.status = EnrollStatus.active →
      (unenroll db u cid).1 = UnenrollOutcome.droppedOk ∧
      (unenroll db u cid).2.findEnrollment u.id cid =
        some { e with
          status := EnrollStatus.dropped, dropped_at := some db.clock }) := by
  refine ⟨?_, ?_, ?_, ?_, ?_⟩
  · intro hc hstu hfull hnone
    have hstu' : (!u.is_student) = false := by simp [hstu]
    unfold enroll
    rw [hc]
    simp only [hstu', Bool.false_eq_true, if_false, hfull, hnone]
    refine ⟨by trivial, ?_⟩
    show DB.findEnrollment _ _ _ = _
    unfold DB.findEnrollment at hnone ⊢
    simp [teacherEnrollmentNotify, create_notification, List.find?_append, hnone]
  · intro hc hstu hfull e he hd
    have hstu' : (!u.is_student) = false := by simp [hstu]
    have hpe := List.find?_some he
    simp only [Bool.and_eq_true, beq_iff_eq] at hpe
    unfold enroll
    rw [hc]
    simp only [hstu', Bool.false_eq_true, if_false, hfull, he, hd]
    simp only [EnrollStatus.dropped, beq_iff_eq]
    refine ⟨rfl, ?_, ?_⟩
    · show DB.findEnrollment _ _ _ = _
      unfold DB.findEnrollment
      refine find?_updateEnrollment _ hpe.1 hpe.2 ?_
      unfold DB.findEnrollment at he
      rw [he]
      rfl
    · exact length_updateEnrollment _ _ _ _
  · intro e he hb
    unfold enroll
    cases hfc : db.findCourse cid with
    | none => exact ⟨rfl, rfl⟩
    | some c0 =>
      by_cases hs : u.is_student = true
      · have hs' : (!u.is_student) = false := by simp [hs]
        by_cases hful : db.is_full c0 = true
        · simp [hs', hful, EnrollOutcome.isError]
        · have hful' : db.is_full c0 = false := by simpa using hful
          simp [hs', hful', he, hb, EnrollOutcome.isError]
      · have hs' : (!u.is_student) = true := by simp [hs]
        simp [hs', EnrollOutcome.isError]
  · intro hc hstu hfull e he hb
    have hstu' : (!u.is_student) = false := by simp [hstu]
    unfold enroll
    rw [hc]
    simp [hstu', hfull, he, hb]
  · intro e he ha
    have hpe := List.find?_some he
    simp only [Bool.and_eq_true, beq_iff_eq] at hpe
    have hq : (unenroll db u cid) = (UnenrollOutcome.droppedOk,
        { db with
          enrollments := updateEnrollment db.enrollments u.id cid
            { e with status := EnrollStatus.dropped, dropped_at := some db.clock },
          clock := db.clock + 1 }) := by
      unfold unenroll
      have hfind : db.enrollments.find? (fun x =>
          x.student_id == u.id && x.course_id == cid &&
          x.status == EnrollStatus.active) = some e := by
        refine find?_strengthen he ?_ ?_
        · simp [hpe.1, hpe.2, ha]
        · intro x hx
          simp only [Bool.and_eq_true] at hx
          simp [hx.1.1, hx.1.2]
      rw [hfind]
    rw [hq]
    refine ⟨rfl, ?_⟩
    show DB.findEnrollment _ _ _ = _
    unfold DB.findEnrollment
    refine find?_updateEnrollment _ hpe.1 hpe.2 ?_
    unfold DB.findEnrollment at he
    rw [he]
    rfl

/-- C3 witness: re-enrolling a dropped student on a non-full course flips
the same row back to active, and unenrolling an active student drops the
row with no capacity condition. -/
theorem C3_amended_state_machine_witness :
    ((enroll droppedDB xUser 10).1 = EnrollOutcome.reenrolled ∧
    (enroll droppedDB xUser 10).2.findEnrollment 2 10 =
      some { student_id := 2, course_id := 10
           , status := EnrollStatus.active, enrolled_at := 50
           , dropped_at := none } ∧
    (enroll droppedDB xUser 10).2.enrollments.length =
      droppedDB.enrollments.length) ∧
    ((unenroll tinyFullDB yUser 11).1 = UnenrollOutcome.droppedOk ∧
    (unenroll tinyFullDB yUser 11).2.findEnrollment 3 11 =
      some { student_id := 3, course_id := 11
           , status := EnrollStatus.dropped, enrolled_at := 55
           , dropped_at := some 100 }) :=
  ⟨(C3_amended_state_machine droppedDB xUser crs 10).2.1 (by decide)
    (by decide) (by decide)
    { student_id := 2, course_id := 10, status := EnrollStatus.dropped
    , enrolled_at := 50, dropped_at := some 60 } (by decide) rfl,
   (C3_amended_state_machine tinyFullDB yUser tinyCrs 11).2.2.2.2
    { student_id := 3, course_id := 11, status := EnrollStatus.active
    , enrolled_at := 55, dropped_at := none } (by decide) rfl⟩

/-- C4: serial capacity scenario on a course with `max_students = 2`: two
enrollments succeed, `is_full` flips exactly at the second, and the third
student is rejected with the capacity error and gains no row. -/
theorem C4_capacity_scenario :
    (enroll baseDB xUser 10).1 = EnrollOutcome.enrolled ∧
    ((enroll baseDB xUser 10).2.findEnrollment 2 10).map Enrollment.status
      = some EnrollStatus.active ∧
    (enroll baseDB xUser 10).2.enrolled_count 10 = 1 ∧
    DB.is_full (enroll baseDB xUser 10).2 crs = false ∧
    (enroll (enroll baseDB xUser 10).2 yUser 10).1 = EnrollOutcome.enrolled ∧
    ((enroll (enroll baseDB xUser 10).2 yUser 10).2.findEnrollment 3 10).map
      Enrollment.status = some EnrollStatus.active ∧
    (enroll (enroll baseDB xUser 10).2 yUser 10).2.enrolled_count 10 = 2 ∧
    DB.is_full (enroll (enroll baseDB xUser 10).2 yUser 10).2 crs = true ∧
    (enroll (enroll (enroll baseDB xUser 10).2 yUser 10).2 zUser 10).1
      = EnrollOutcome.full ∧
    EnrollOutcome.isError
      (enroll (enroll (enroll baseDB xUser 10).2 yUser 10).2 zUser 10).1
      = true ∧
    (enroll (enroll (enroll baseDB xUser 10).2 yUser 10).2 zUser 10).2.findEnrollment 4 10 = none ∧
    (enroll (enroll (enroll baseDB xUser 10).2 yUser 10).2 zUser 10).2
      = (enroll (enroll baseDB xUser 10).2 yUser 10).2 := by decide

theorem dmRoomPred_symm (a b : Nat) : dmRoomPred a b = dmRoomPred b a := by
  funext r
  unfold dmRoomPred
  rw [Bool.and_assoc, Bool.and_assoc, Bool.and_comm (r.participants.contains a)]

theorem dm_count_step (db : DB) (u : User) (tid : Nat) :
    (dmRoomsFor (directMessageView db u tid).2 u.id tid).length ≤
      max 1 (dmRoomsFor db u.id tid).length := by
  unfold directMessageView
  cases hfu : db.findUser tid with
  | none => exact Nat.le_max_right _ _
  | some other =>
    have hoid : other.id = tid := by simpa using List.find?_some hfu
    by_cases hself : (other.id == u.id) = true
    · simp only [hself, if_true]
      exact Nat.le_max_right _ _
    · simp only [hself, Bool.false_eq_true, if_false]
      cases hfr : db.rooms.find? (dmRoomPred u.id other.id) with
      | some room => exact Nat.le_max_right _ _
      | none =>
        have hall := List.find?_eq_none.mp hfr
        have hfilter : db.rooms.filter (dmRoomPred u.id tid) = [] := by
          rw [List.filter_eq_nil_iff]
          intro r hr
          have := hall r hr
          rw [hoid] at this
          exact this
        simp only [dmRoomsFor]
        simp [List.filter_cons, hfilter, dmRoomPred, dmNewRoom, hoid]

theorem dm_bootstrap_count_invariant (u : User) (tid : Nat) (n : Nat) :
    ∀ db : DB, (dmRoomsFor db u.id tid).length ≤ 1 →
      (dmRoomsFor (dmBootstrapIter u tid n db) u.id tid).length ≤ 1 := by
  induction n with
  | zero => intro db h; exact h
  | succ k ih =>
    intro db h
    refine ih _ ?_
    have := dm_count_step db u tid
    omega

/-- C5: the direct-message bootstrap is symmetric in the user pair,
repeating it never pushes the pair's direct-room count above one, and a
self-targeting request is redirected away with no store change. -/
theorem C5_dm_bootstrap (db : DB) (A B : User)
    (hA : db.findUser A.id = some A) (hB : db.findUser B.id = some B)
    (hne : A.id ≠ B.id) :
    (∃ rid histA histB db2,
      directMessageView db A B.id = (DMResult.page rid histA, db2) ∧
      directMessageView db2 B A.id = (DMResult.page rid histB, db2)) ∧
    ((dmRoomsFor db A.id B.id).length ≤ 1 →
      ∀ n, (dmRoomsFor (dmBootstrapIter A B.id n db) A.id B.id).length ≤ 1) ∧
    directMessageView db A A.id = (DMResult.redirectSelf, db) := by
  have hBA : (B.id == A.id) = false := by
    simp only [beq_eq_false_iff_ne]
    exact fun h => hne h.symm
  have hAB : (A.id == B.id) = false := by
    simp only [beq_eq_false_iff_ne]
    exact hne
  refine ⟨?_, ?_, ?_⟩
  · cases hf : db.rooms.find? (dmRoomPred A.id B.id) with
    | some room =>
      refine ⟨room.id, pageHistory db room.id, pageHistory db room.id, db, ?_, ?_⟩
      · unfold directMessageView
        rw [hB]
        simp only [hBA, Bool.false_eq_true, if_false, hf]
      · unfold directMessageView
        rw [hA]
        simp only [hAB, Bool.false_eq_true, if_false, dmRoomPred_symm B.id A.id, hf]
    | none =>
      refine ⟨db.clock,
        pageHistory { db with rooms := dmNewRoom db A B :: db.rooms, clock := db.clock + 1 } db.clock,
        pageHistory { db with rooms := dmNewRoom db A B :: db.rooms, clock := db.clock + 1 } db.clock,
        { db with rooms := dmNewRoom db A B :: db.rooms, clock := db.clock + 1 },
        ?_, ?_⟩
      · unfold directMessageView
        rw [hB]
        simp only [hBA, Bool.false_eq_true, if_false, hf]
        rfl
      · unfold directMessageView
        have hA2 : DB.findUser
            { db with rooms := dmNewRoom db A B :: db.rooms, clock := db.clock + 1 }
            A.id = some A := hA
        rw [hA2]
        simp only [hAB, Bool.false_eq_true, if_false]
        rw [dmRoomPred_symm B.id A.id]
        rw [List.find?_cons_of_pos _ (by simp [dmRoomPred, dmNewRoom])]
        rfl
  · intro h n
    exact dm_bootstrap_count_invariant A B.id n db h
  · unfold directMessageView
    rw [hA]
    simp

/-- C5 witness. -/
theorem C5_dm_bootstrap_witness :
    ∃ rid histA histB db2,
      directMessageView baseDB xUser yUser.id = (DMResult.page rid histA, db2) ∧
      directMessageView db2 yUser xUser.id = (DMResult.page rid histB, db2) :=
  (C5_dm_bootstrap baseDB xUser yUser (by decide) (by decide) (by decide)).1

/-- C6: creating a course material in eager mode appends, in one bulk
insert, exactly one notification per enrollment of the course whose status
is active at execution time — none for dropped or blocked enrollments —
and editing an existing material appends none. -/
theorem C6_material_notifications (db : DB) (c : Course) (title : String)
    (mat_id : Nat) (newTitle : String) :
    ∃ new,
      (createMaterial db c title).notifications = db.notifications ++ new ∧
      (∀ s : Nat, new.countP (fun n => n.recipient_id == s) =
        db.enrollments.countP (fun e =>
          e.course_id == c.id && e.status == EnrollStatus.active &&
          e.student_id == s)) ∧
      (∀ n ∈ new, n.notification_type = "new_material" ∧
        n.title = "New material in " ++ c.code ∧
        n.message = "\"" ++ title ++ "\" has been uploaded to " ++
          c.title ++ ".") ∧
      (∀ s : Nat, db.enrollments.countP (fun e =>
          e.course_id == c.id && e.status == EnrollStatus.active &&
          e.student_id == s) = 0 →
        ∀ n ∈ new, n.recipient_id ≠ s) ∧
      (editMaterial db mat_id newTitle).notifications = db.notifications := by
  refine ⟨((db.enrollments.filter (fun e =>
      e.course_id == c.id && e.status == EnrollStatus.active)).map
        (fun e => e.student_id)).map (fun sid =>
          { recipient_id := sid, notification_type := "new_material"
          , title := "New material in " ++ c.code
          , message := "\"" ++ title ++ "\" has been uploaded to " ++
              c.title ++ "."
          , link := "/courses/" ++ toString c.id ++ "/" }),
    ?_, ?_, ?_, ?_, ?_⟩
  · simp [createMaterial, notify_course_students]
  · intro s
    rw [List.countP_map, List.countP_map, List.countP_filter]
    congr 1
    funext a
    simp only [Function.comp]
    rw [Bool.and_comm]
  · intro n hn
    simp only [List.mem_map] at hn
    obtain ⟨sid, hsid, rfl⟩ := hn
    exact ⟨rfl, rfl, rfl⟩
  · intro s hzero n hn hrec
    simp only [List.mem_map] at hn
    obtain ⟨sid, hsid, rfl⟩ := hn
    simp only [List.mem_map, List.mem_filter] at hsid
    obtain ⟨e, ⟨hemem, hecond⟩, rfl⟩ := hsid
    have hall := List.countP_eq_zero.mp hzero e hemem
    simp only [Bool.and_eq_true] at hall hecond
    exact hall ⟨hecond, by simpa using hrec⟩
  · rfl

/-- C7: in eager mode, a fresh active enrollment created through the
enroll view produces exactly one notification row, addressed to the
course's teacher, typed enrollment, titled with the course code and
worded with the student's display name and the course title. -/
theorem C7_enrollment_notification (db : DB) (u : User) (c : Course)
    (cid : Nat) (hc : db.findCourse cid = some c)
    (hstu : u.is_student = true) (hfull : db.is_full c = false)
    (hnone : db.findEnrollment u.id cid = none) :
    (enroll db u cid).1 = EnrollOutcome.enrolled ∧
    (enroll db u cid).2.notifications = db.notifications ++
      [{ recipient_id := c.teacher_id, notification_type := "enrollment"
       , title := "New enrollment in " ++ c.code
       , message := displayName u ++ " has enrolled in " ++ c.title ++ "."
       , link := "/courses/" ++ toString c.id ++ "/students/" }] := by
  have hstu' : (!u.is_student) = false := by simp [hstu]
  unfold enroll
  rw [hc]
  simp only [hstu', Bool.false_eq_true, if_false, hfull, hnone]
  exact ⟨by trivial, by rfl⟩

/-- C7 witness. -/
theorem C7_enrollment_notification_witness :
    (enroll baseDB xUser 10).1 = EnrollOutcome.enrolled ∧
    (enroll baseDB xUser 10).2.notifications = baseDB.notifications ++
      [{ recipient_id := crs.teacher_id, notification_type := "enrollment"
       , title := "New enrollment in " ++ crs.code
       , message := displayName xUser ++ " has enrolled in " ++
           crs.title ++ "."
       , link := "/courses/" ++ toString crs.id ++ "/students/" }] :=
  C7_enrollment_notification baseDB xUser crs 10 (by decide) (by decide)
    (by decide) (by decide)

/-- C10: re-activating a dropped enrollment through the enroll view is an
update of the existing row (`created=False` in the `post_save` signal), so
no notification row is created. -/
theorem C10_reenroll_no_notification (db : DB) (u : User) (c : Course)
    (cid : Nat) (e : Enrollment) (hc : db.findCourse cid = some c)
    (hstu : u.is_student = true) (hfull : db.is_full c = false)
    (he : db.findEnrollment u.id cid = some e)
    (hd : e.status = EnrollStatus.dropped) :
    (enroll db u cid).1 = EnrollOutcome.reenrolled ∧
    ((enroll db u cid).2.findEnrollment u.id cid).map Enrollment.status
      = some EnrollStatus.active ∧
    (enroll db u cid).2.notifications = db.notifications := by
  have hstu' : (!u.is_student) = false := by simp [hstu]
  have hpe := List.find?_some he
  simp only [Bool.and_eq_true, beq_iff_eq] at hpe
  unfold enroll
  rw [hc]
  simp only [hstu', Bool.false_eq_true, if_false, hfull, he, hd]
  simp only [show (EnrollStatus.dropped == EnrollStatus.blocked) = false from rfl,
    show (EnrollStatus.dropped == EnrollStatus.active) = false from rfl,
    Bool.false_eq_true, if_false]
  refine ⟨trivial, ?_, trivial⟩
  have hup : List.find? (fun x => x.student_id == u.id && x.course_id == cid)
      (updateEnrollment db.enrollments u.id cid { e with status := EnrollStatus.active, dropped_at := none }) =
      some { e with status := EnrollStatus.active, dropped_at := none } := by
    refine find?_updateEnrollment _ hpe.1 hpe.2 ?_
    unfold DB.findEnrollment at he
    rw [he]
    rfl
  unfold DB.findEnrollment
  rw [hup]
  rfl

/-- C10 witness. -/
theorem C10_reenroll_no_notification_witness :
    (enroll droppedDB xUser 10).1 = EnrollOutcome.reenrolled ∧
    ((enroll droppedDB xUser 10).2.findEnrollment 2 10).map Enrollment.status
      = some EnrollStatus.active ∧
    (enroll droppedDB xUser 10).2.notifications = droppedDB.notifications :=
  C10_reenroll_no_notification droppedDB xUser crs 10
    { student_id := 2, course_id := 10, status := EnrollStatus.dropped
    , enrolled_at := 50, dropped_at := some 60 }
    (by decide) (by decide) (by decide) (by decide) rfl

/-- C8 counterexample: a successful course-room connect does not create
the room — with no course-type room in the store, the teacher's connect is
accepted yet the store still holds no room afterwards. -/
theorem C8_counterexample_connect_creates_nothing :
    (groupConnect baseDB (some tUser) 10 "chA").1 = ConnectResult.accepted ∧
    (groupConnect baseDB (some tUser) 10 "chA").2.rooms = [] := by decide

/-- C8 (amended): the course room is created lazily not by `connect` —
which never touches room rows — but by the first message save:
`GroupChatConsumer.save_message` get-or-creates the room keyed on
(course id, `room_type=course`) with the course-derived default name, so
after the first non-empty frame the room exists, and a pre-existing room
is reused without adding a row. -/
theorem C8_room_created_on_first_message (db : DB) (user : Option User)
    (u : User) (course_id : Nat) (ch : String) (payload : Option String) :
    (groupConnect db user course_id ch).2.rooms = db.rooms ∧
    (pyStrip (payload.getD "") ≠ "" →
      (db.rooms.find? (fun r => r.course_id == some course_id &&
          r.room_type == RoomType.course) = none →
        (groupReceive db u course_id payload).1.rooms =
          { id := db.clock, name := "Course " ++ toString course_id ++ " Chat"
          , room_type := RoomType.course, course_id := some course_id
          , participants := ([] : List Nat) } :: db.rooms) ∧
      (∀ r0, db.rooms.find? (fun r => r.course_id == some course_id &&
          r.room_type == RoomType.course) = some r0 →
        (groupReceive db u course_id payload).1.rooms = db.rooms) ∧
      (∃ r ∈ (groupReceive db u course_id payload).1.rooms,
        r.course_id = some course_id ∧ r.room_type = RoomType.course)) := by
  constructor
  · cases user with
    | none => rfl
    | some v =>
      unfold groupConnect
      by_cases h : has_course_access db v course_id = true
      · simp [h, DB.group_add]
        split <;> rfl
      · simp [h]
  · intro hne
    have hbeq : (pyStrip (payload.getD "") == "") = false := by simpa using hne
    refine ⟨?_, ?_, ?_⟩
    · intro hnone
      simp [groupReceive, hbeq, group_save_message, getOrCreateCourseRoom, hnone]
    · intro r0 hsome
      simp [groupReceive, hbeq, group_save_message, getOrCreateCourseRoom, hsome]
    · have hrm := getOrCreateCourseRoom_room db course_id
      refine ⟨(getOrCreateCourseRoom db course_id).1, ?_, hrm.1, hrm.2.1⟩
      have : (groupReceive db u course_id payload).1.rooms =
          (getOrCreateCourseRoom db course_id).2.rooms := by
        simp [groupReceive, hbeq, group_save_message]
      rw [this]
      exact hrm.2.2

/-- C8 witness. -/
theorem C8_room_created_on_first_message_witness :
    (groupConnect baseDB (some tUser) 10 "chA").2.rooms = baseDB.rooms ∧
    ((baseDB.rooms.find? (fun r => r.course_id == some 10 &&
        r.room_type == RoomType.course) = none →
      (groupReceive baseDB tUser 10 (some "hello")).1.rooms =
        { id := baseDB.clock, name := "Course " ++ toString 10 ++ " Chat"
        , room_type := RoomType.course, course_id := some 10
        , participants := ([] : List Nat) } :: baseDB.rooms) ∧
    (∀ r0, baseDB.rooms.find? (fun r => r.course_id == some 10 &&
        r.room_type == RoomType.course) = some r0 →
      (groupReceive baseDB tUser 10 (some "hello")).1.rooms = baseDB.rooms) ∧
    (∃ r ∈ (groupReceive baseDB tUser 10 (some "hello")).1.rooms,
      r.course_id = some 10 ∧ r.room_type = RoomType.course)) :=
  ⟨(C8_room_created_on_first_message baseDB (some tUser) tUser 10 "chA"
      (some "hello")).1,
   (C8_room_created_on_first_message baseDB (some tUser) tUser 10 "chA"
      (some "hello")).2 (by decide)⟩

set_option maxRecDepth 4000 in
/-- C9 counterexample: with 101 messages in the room, the on-page history
(`order_by('timestamp')[:100]`) is the oldest hundred, not the spec's
most-recent hundred. -/
theorem C9_counterexample_page_window_is_oldest :
    (roomMessages manyMsgDB 1).length = 101 ∧
    pageHistory manyMsgDB 1 ≠ specRecentWindow 100 manyMsgDB 1 := by decide

/-- C9 (amended): the on-page chat views return the oldest (not most
recent) 100 messages of the room in ascending timestamp order, and the
API room-detail view returns the most recent 50 in ascending order. -/
theorem C9_history_windows (db : DB) (u : User) (target_id room_id : Nat) :
    (∀ rid hist db2, directMessageView db u target_id =
        (DMResult.page rid hist, db2) → hist = pageHistory db2 rid) ∧
    List.Pairwise tsLe (pageHistory db room_id) ∧
    (pageHistory db room_id).length =
      min 100 (roomMessages db room_id).length ∧
    (∀ x ∈ pageHistory db room_id, x ∈ roomMessages db room_id) ∧
    (∀ x ∈ pageHistory db room_id,
      ∀ y ∈ (roomMessagesAsc db room_id).drop 100, x.timestamp ≤ y.timestamp) ∧
    get_messages db room_id = specRecentWindow 50 db room_id ∧
    List.Pairwise tsLe (get_messages db room_id) ∧
    (get_messages db room_id).length =
      min 50 (roomMessages db room_id).length ∧
    (∀ x ∈ get_messages db room_id, x ∈ roomMessages db room_id) ∧
    (∀ y ∈ (sortByTsDesc (roomMessages db room_id)).drop 50,
      ∀ x ∈ get_messages db room_id, y.timestamp ≤ x.timestamp) := by
  have hdesc : List.Pairwise (fun a b => tsLe b a)
      (sortByTsDesc (roomMessages db room_id)) := by
    unfold sortByTsDesc
    rw [List.pairwise_reverse]
    exact pairwise_sortByTs _
  refine ⟨?_, ?_, ?_, ?_, ?_, rfl, ?_, ?_, ?_, ?_⟩
  · intro rid hist db2 hview
    unfold directMessageView at hview
    cases hfu : db.findUser target_id with
    | none => rw [hfu] at hview; cases hview
    | some other =>
      rw [hfu] at hview
      by_cases hself : (other.id == u.id) = true
      · simp only [hself, if_true] at hview
        cases hview
      · simp only [hself, Bool.false_eq_true, if_false] at hview
        cases hfr : db.rooms.find? (dmRoomPred u.id other.id) with
        | some room =>
          rw [hfr] at hview
          cases hview
          rfl
        | none =>
          rw [hfr] at hview
          cases hview
          rfl
  · exact List.Pairwise.sublist (List.take_sublist _ _) (pairwise_sortByTs _)
  · unfold pageHistory roomMessagesAsc
    rw [List.length_take, length_sortByTs]
  · intro x hx
    have hx' := List.take_sublist 100 (roomMessagesAsc db room_id) |>.mem hx
    exact mem_sortByTs.mp hx'
  · intro x hx y hy
    exact pairwise_take_drop (pairwise_sortByTs _) 100 x hx y hy
  · unfold get_messages
    rw [List.pairwise_reverse]
    exact List.Pairwise.sublist (List.take_sublist _ _) hdesc
  · unfold get_messages sortByTsDesc
    rw [List.length_reverse, List.length_take, List.length_reverse,
      length_sortByTs]
  · intro x hx
    unfold get_messages at hx
    rw [List.mem_reverse] at hx
    have hx' := List.take_sublist 50 (sortByTsDesc (roomMessages db room_id))
      |>.mem hx
    unfold sortByTsDesc at hx'
    rw [List.mem_reverse] at hx'
    exact mem_sortByTs.mp hx'
  · intro y hy x hx
    unfold get_messages at hx
    rw [List.mem_reverse] at hx
    exact pairwise_take_drop hdesc 50 x hx y hy

/-- C9 witness. -/
theorem C9_history_windows_witness :
    ([] : List Message) = pageHistory (directMessageView baseDB xUser 3).2 100 :=
  (C9_history_windows baseDB xUser 3 1).1 100 []
    (directMessageView baseDB xUser 3).2 (by decide)

/-- C6 witness. -/
theorem C6_material_notifications_witness :
    ∃ new,
      (createMaterial mixedDB crs "Notes").notifications =
        mixedDB.notifications ++ new ∧
      (∀ s : Nat, new.countP (fun n => n.recipient_id == s) =
        mixedDB.enrollments.countP (fun e =>
          e.course_id == crs.id && e.status == EnrollStatus.active &&
          e.student_id == s)) ∧
      (∀ n ∈ new, n.notification_type = "new_material" ∧
        n.title = "New material in " ++ crs.code ∧
        n.message = "\"" ++ "Notes" ++ "\" has been uploaded to " ++
          crs.title ++ ".") ∧
      (∀ s : Nat, mixedDB.enrollments.countP (fun e =>
          e.course_id == crs.id && e.status == EnrollStatus.active &&
          e.student_id == s) = 0 →
        ∀ n ∈ new, n.recipient_id ≠ s) ∧
      (editMaterial mixedDB 0 "Other").notifications = mixedDB.notifications :=
  C6_material_notifications mixedDB crs "Notes" 0 "Other"

end ELearn
